import Mathlib

/-!
Verification of the BioImageIT OMERO metadata service
(`bioimageit_omero/data_omero.py`).

The development shallowly embeds the parts of the module that the
specification's claims are about:

* a model of JSON values (`JValue`) as produced by Python's `json.load`,
  together with the Python dynamic-typing failures (`PyErr`) that
  subscripting and iteration can raise;
* the run provenance codec (`OmeroMetadataService._parse_run` /
  `OmeroMetadataService._write_run`);
* the processed-data origin codec
  (`get_processed_data` / `update_processed_data`);
* the run-document name allocation loop of `create_run`;
* the key-value merge of `get_raw_data`;
* the import-format gate of `import_data`, as a trace of remote calls;
* the singleton `OmeroMetadataServiceBuilder`;
* the annotation replacement step of `update_processed_data`.

Data container classes (`Run`, `Container`, `RunInputContainer`,
`RunParameterContainer`, `ProcessedData`) are plain attribute holders in
`bioimageit_core`; they are embedded as plain structures whose fields hold
arbitrary JSON values, mirroring Python's dynamic typing.
-/

/-- A JSON value as produced by Python's `json.load`: `None`, booleans,
numbers, strings, lists and dicts (dicts keep insertion order). -/
inductive JValue where
  | null
  | bool (b : Bool)
  | num (n : Int)
  | str (s : String)
  | arr (items : List JValue)
  | obj (fields : List (String × JValue))

/-- The Python exceptions that the embedded code of `data_omero.py` can
raise.  The decoders raise only the built-in `KeyError` (missing dict key)
and `TypeError` (subscript or iteration on a value of the wrong type); the
module defines no typed malformed-document error.  `dataServiceError` is
the one typed error the module raises itself (`DataServiceError` from
`bioimageit_core`), carrying its message. -/
inductive PyErr where
  | keyError (k : String)
  | typeError
  | dataServiceError (msg : String)
deriving DecidableEq, Repr

/-- Python dict subscription `d[k]`: a present key yields its value, an
absent key raises `KeyError`, and subscripting a non-dict JSON value with a
string raises `TypeError`. -/
def JValue.getKey : JValue → String → Except PyErr JValue
  | .obj fields, k =>
    match fields.lookup k with
    | some v => Except.ok v
    | none => Except.error (PyErr.keyError k)
  | _, _ => Except.error PyErr.typeError

/-- Python iteration `for x in v`: lists yield their items, dicts yield
their keys, strings yield their one-character substrings, and the remaining
JSON values (`None`, booleans, numbers) raise `TypeError`. -/
def JValue.iter : JValue → Except PyErr (List JValue)
  | .arr items => Except.ok items
  | .obj fields => Except.ok (fields.map (fun p => JValue.str p.1))
  | .str s => Except.ok (s.data.map (fun c => JValue.str (String.mk [c])))
  | _ => Except.error PyErr.typeError

/-- `bioimageit_core` `Container`: a `(md_uri, uuid)` reference pair. -/
structure Container where
  md_uri : JValue
  uuid : JValue

/-- `bioimageit_core` `RunInputContainer`: one named input of a run. -/
structure RunInputContainer where
  name : JValue
  dataset : JValue
  query : JValue
  origin_output_name : JValue

/-- `bioimageit_core` `RunParameterContainer`: one name/value parameter. -/
structure RunParameterContainer where
  name : JValue
  value : JValue

/-- `bioimageit_core` `Run`: the provenance record of one processing run. -/
structure Run where
  md_uri : JValue
  uuid : JValue
  process_name : JValue
  process_uri : JValue
  processed_dataset : Container
  inputs : List RunInputContainer
  parameters : List RunParameterContainer

/-- One iteration of the `for input_ in metadata['inputs']` loop of
`_parse_run`: subscript the element with the four required keys, in the
order the `RunInputContainer` constructor arguments are evaluated. -/
def parse_run_input (input_ : JValue) : Except PyErr RunInputContainer := do
  let n ← input_.getKey "name"
  let d ← input_.getKey "dataset"
  let q ← input_.getKey "query"
  let o ← input_.getKey "origin_output_name"
  pure ⟨n, d, q, o⟩

/-- The `for input_ in metadata['inputs']` loop of `_parse_run`: the
elements are parsed in order and appended to `container.inputs`; the first
failing element aborts the whole decode. -/
def parse_run_inputs : List JValue → Except PyErr (List RunInputContainer)
  | [] => Except.ok []
  | x :: xs => do
    let i ← parse_run_input x
    let rest ← parse_run_inputs xs
    pure (i :: rest)

/-- One iteration of the `for parameter in metadata['parameters']` loop of
`_parse_run`. -/
def parse_run_parameter (p : JValue) : Except PyErr RunParameterContainer := do
  let n ← p.getKey "name"
  let v ← p.getKey "value"
  pure ⟨n, v⟩

/-- The `for parameter in metadata['parameters']` loop of `_parse_run`. -/
def parse_run_parameters : List JValue → Except PyErr (List RunParameterContainer)
  | [] => Except.ok []
  | x :: xs => do
    let p ← parse_run_parameter x
    let rest ← parse_run_parameters xs
    pure (p :: rest)

/-- `OmeroMetadataService._parse_run`, applied to the JSON document read
from the file at `md_uri`.  The subscriptions happen in the source's
evaluation order: `uuid`, `process.name`, `process.url`,
`processed_dataset.url`, `processed_dataset.uuid`, then the `inputs` and
`parameters` loops.  `container.md_uri` is set to the `md_uri` argument,
not to anything read from the document. -/
def parse_run (metadata : JValue) (md_uri : JValue) : Except PyErr Run := do
  let uuid ← metadata.getKey "uuid"
  let process ← metadata.getKey "process"
  let pname ← process.getKey "name"
  let purl ← process.getKey "url"
  let pd ← metadata.getKey "processed_dataset"
  let pdUrl ← pd.getKey "url"
  let pdUuid ← pd.getKey "uuid"
  let inputsV ← metadata.getKey "inputs"
  let inputsL ← inputsV.iter
  let inputs ← parse_run_inputs inputsL
  let paramsV ← metadata.getKey "parameters"
  let paramsL ← paramsV.iter
  let params ← parse_run_parameters paramsL
  pure { md_uri := md_uri, uuid := uuid, process_name := pname,
         process_uri := purl, processed_dataset := ⟨pdUrl, pdUuid⟩,
         inputs := inputs, parameters := params }

/-- The dict built for one element of `metadata['inputs']` by
`_write_run`. -/
def write_run_input (i : RunInputContainer) : JValue :=
  JValue.obj [("name", i.name), ("dataset", i.dataset), ("query", i.query),
              ("origin_output_name", i.origin_output_name)]

/-- The dict built for one element of `metadata['parameters']` by
`_write_run`: the in-memory `parameter.value` is stored verbatim, with no
conversion to text. -/
def write_run_parameter (p : RunParameterContainer) : JValue :=
  JValue.obj [("name", p.name), ("value", p.value)]

/-- `OmeroMetadataService._write_run`: the JSON document it serializes to
`run.md_uri` (key insertion order as in the source). -/
def write_run_doc (run : Run) : JValue :=
  JValue.obj
    [("uuid", run.uuid),
     ("process", JValue.obj [("name", run.process_name),
                             ("url", run.process_uri)]),
     ("processed_dataset", JValue.obj [("uuid", run.processed_dataset.uuid),
                                       ("url", run.processed_dataset.md_uri)]),
     ("inputs", JValue.arr (run.inputs.map write_run_input)),
     ("parameters", JValue.arr (run.parameters.map write_run_parameter))]

/-- The decimal digit characters of `n`, most significant first: the
list that Python's `str(n)` (and Lean's `Nat.repr`, used to embed it)
consists of. -/
def decChars (n : Nat) : List Char :=
  if _h : n < 10 then [Nat.digitChar n]
  else decChars (n / 10) ++ [Nat.digitChar (n % 10)]
termination_by n
decreasing_by exact Nat.div_lt_self (by omega) (by omega)

/-- The value denoted by a list of decimal digit characters. -/
def decVal (l : List Char) : Nat :=
  l.foldl (fun a c => a * 10 + (c.toNat - 48)) 0

/-- The run-document name sequence of `create_run`:
`run.md.json, run_1.md.json, run_2.md.json, ...` (`runName k` is the
candidate tried after `k` collisions; Python's `str(count)` is the decimal
representation `Nat.repr`). -/
def runName : Nat → String
  | 0 => "run.md.json"
  | k + 1 => "run_" ++ Nat.repr (k + 1) ++ ".md.json"

/-- The `while run_md_file_name in ann_files` loop of `create_run`,
bounded by explicit fuel: starting from candidate number `count`, advance
to the next candidate while the current one is among the existing
attachment names. -/
def alloc_run_name_loop (ann_files : List String) : Nat → Nat → String
  | 0, count => runName count
  | fuel + 1, count =>
    if runName count ∈ ann_files then
      alloc_run_name_loop ann_files fuel (count + 1)
    else runName count

/-- The run-document name allocated by `create_run` on a dataset whose
existing attachment names are `ann_files`.  `ann_files.length + 1` rounds
of the loop always suffice, because the candidate names are pairwise
distinct. -/
def alloc_run_name (ann_files : List String) : String :=
  alloc_run_name_loop ann_files (ann_files.length + 1) 0

/-- An OMERO annotation, as the adapter type-dispatches on it: a tag
annotation (plain string value), a map annotation (ordered key-value
pairs), or a file annotation (attached file, identified by name). -/
inductive Annot where
  | tag (value : String)
  | map (values : List (String × String))
  | file (name : String)
deriving DecidableEq, Repr

/-- Python dict assignment `kv[k] = v` on an insertion-ordered dict:
updating an existing key keeps its position, a new key is appended. -/
def dictSet (m : List (String × String)) (k v : String) :
    List (String × String) :=
  if (m.lookup k).isSome then
    m.map (fun p => if p.1 = k then (k, v) else p)
  else m ++ [(k, v)]

/-- The first phase of the key-value read in `get_raw_data`: every map
annotation of the image contributes its pairs through
`container.key_value_pairs[value[0]] = value[1]`, starting from the empty
dict of a fresh `RawData`. -/
def raw_data_item_pairs (image_anns : List Annot) :
    List (String × String) :=
  image_anns.foldl
    (fun kv ann =>
      match ann with
      | Annot.map values =>
        values.foldl (fun kv p => dictSet kv p.1 p.2) kv
      | _ => kv) []

/-- The tag values of the enclosing project, in annotation order. -/
def project_tag_keys (project_anns : List Annot) : List String :=
  project_anns.filterMap
    (fun ann =>
      match ann with
      | Annot.tag t => some t
      | _ => none)

/-- The key-value map computed by `get_raw_data`: the image-level map
annotations fill the dict, then each project tag whose value is not
already among the keys appends an empty-string entry. -/
def get_raw_data_kvp (image_anns project_anns : List Annot) :
    List (String × String) :=
  project_anns.foldl
    (fun kv ann =>
      match ann with
      | Annot.tag t =>
        if (kv.lookup t).isSome then kv
        else kv ++ [(t, "")]
      | _ => kv) (raw_data_item_pairs image_anns)

/-- A remote OMERO interaction performed through the gateway during
`import_data`.  Lookups read the remote store; the other operations mutate
it. -/
inductive RemoteOp where
  | lookupDataset (id : JValue)
  | importImage (path : String)
  | linkImageToDataset (datasetId : JValue) (imageId : Int)
  | saveMapAnnot (pairs : List (String × String))
  | lookupImage (id : Int)
  | linkAnnotToImage (id : Int)

/-- Whether a remote operation mutates the remote store (anything that is
not a pure lookup). -/
def RemoteOp.isMutation : RemoteOp → Bool
  | RemoteOp.lookupDataset _ => false
  | RemoteOp.lookupImage _ => false
  | _ => true

/-- The fields of the `bioimageit_core` `RawData` container that
`import_data` populates. -/
structure RawData where
  uuid : JValue
  md_uri : JValue
  name : JValue
  author : JValue
  format : JValue
  date : JValue
  key_value_pairs : List (String × String)

/-- `OmeroMetadataService.import_data`, as the ordered trace of remote
operations it performs together with its outcome.  The raw-dataset lookup
(`conn.getObject("Dataset", raw_dataset_id)`) happens first,
unconditionally; only then is the format tag compared against
`imagetiff`, and any other format raises
`DataServiceError(f'OMERO service can only import tiff images
(format=...)')`.  `image_id` stands for the image id the remote store
assigns during `main_import`. -/
def import_data (raw_dataset_url : JValue) (data_path : String)
    (name author date : JValue) (format_ : String)
    (key_value_pairs : List (String × String)) (image_id : Int) :
    List RemoteOp × Except PyErr RawData :=
  let trace0 := [RemoteOp.lookupDataset raw_dataset_url]
  if format_ == "imagetiff" then
    let trace1 := trace0 ++
      [RemoteOp.importImage data_path,
       RemoteOp.linkImageToDataset raw_dataset_url image_id]
    let trace2 :=
      if key_value_pairs.length ≠ 0 then
        trace1 ++ [RemoteOp.saveMapAnnot key_value_pairs,
                   RemoteOp.lookupImage image_id,
                   RemoteOp.linkAnnotToImage image_id]
      else trace1
    (trace2,
     Except.ok
       { uuid := JValue.num image_id, md_uri := JValue.num image_id,
         name := name, author := author, format := JValue.str format_,
         date := date, key_value_pairs := key_value_pairs })
  else
    (trace0,
     Except.error (PyErr.dataServiceError
       ("OMERO service can only import tiff images (format=" ++ format_ ++ ")")))

/-- `bioimageit_core` `ProcessedDataInputContainer`: one origin input of a
processed data item (constructor order `name, uri, uuid, type`, as the
decoder passes `input_['name'], input_['url'], input_['uuid'],
input_['type']`). -/
structure ProcessedDataInputContainer where
  name : JValue
  uri : JValue
  uuid : JValue
  type : JValue

/-- Python membership test `k in v` for the dict case: key containment.
The origin decoder applies it only to the `output` dict of an origin
document; the theorems below exercise no other case. -/
def JValue.hasKeyObj : JValue → String → Except PyErr Bool
  | JValue.obj fields, k => Except.ok ((fields.lookup k).isSome)
  | _, _ => Except.error PyErr.typeError

/-- Python dict assignment `d[k] = v` with JSON values: updating an
existing key keeps its position, a new key is appended. -/
def dictSetJ (m : List (String × JValue)) (k : String) (v : JValue) :
    List (String × JValue) :=
  if (m.lookup k).isSome then
    m.map (fun p => if p.1 = k then (k, v) else p)
  else m ++ [(k, v)]

/-- Python dict subscription `d[k]` with JSON values: `KeyError` when the
key is absent. -/
def dictGetJ (m : List (String × JValue)) (k : String) : Except PyErr JValue :=
  match m.lookup k with
  | some v => Except.ok v
  | none => Except.error (PyErr.keyError k)

/-- One iteration of the `for input_ in metadata['origin']['inputs']` loop
of `get_processed_data`. -/
def parse_processed_input (input_ : JValue) :
    Except PyErr ProcessedDataInputContainer := do
  let n ← input_.getKey "name"
  let u ← input_.getKey "url"
  let i ← input_.getKey "uuid"
  let t ← input_.getKey "type"
  pure ⟨n, u, i, t⟩

/-- The `for input_ in metadata['origin']['inputs']` loop of
`get_processed_data`. -/
def parse_processed_inputs :
    List JValue → Except PyErr (List ProcessedDataInputContainer)
  | [] => Except.ok []
  | x :: xs => do
    let i ← parse_processed_input x
    let rest ← parse_processed_inputs xs
    pure (i :: rest)

/-- The `output` handling of `get_processed_data` (lines setting
`container.output`): starting from the empty dict of a fresh
`ProcessedData`, the `name` entry is copied only if the key `name` is
present in the document's output object, then likewise for `label`.  An
absent key stays absent; it is never materialised as an empty string. -/
def parse_origin_output (output : JValue) :
    Except PyErr (List (String × JValue)) := do
  let hasName ← output.hasKeyObj "name"
  let out1 ←
    if hasName then do
      let v ← output.getKey "name"
      pure (dictSetJ [] "name" v)
    else pure []
  let hasLabel ← output.hasKeyObj "label"
  if hasLabel then do
    let v ← output.getKey "label"
    pure (dictSetJ out1 "label" v)
  else pure out1

/-- The origin-document decoding part of
`OmeroMetadataService.get_processed_data`: the run reference
(`Container(url, uuid)`), the origin inputs, and the output dict. -/
def parse_processed_origin (metadata : JValue) :
    Except PyErr (Container × List ProcessedDataInputContainer ×
      List (String × JValue)) := do
  let origin ← metadata.getKey "origin"
  let run ← origin.getKey "run"
  let runUrl ← run.getKey "url"
  let runUuid ← run.getKey "uuid"
  let inputsV ← origin.getKey "inputs"
  let inputsL ← inputsV.iter
  let inputs ← parse_processed_inputs inputsL
  let outputV ← origin.getKey "output"
  let output ← parse_origin_output outputV
  pure (⟨runUrl, runUuid⟩, inputs, output)

/-- The origin document built by
`OmeroMetadataService.update_processed_data`: origin type `processed`,
run reference, inputs, and an output dict that unconditionally subscripts
both `processed_data.output['name']` and `processed_data.output['label']`
(raising `KeyError` if either is absent from the in-memory output). -/
def update_processed_data_doc (run : Container)
    (inputs : List ProcessedDataInputContainer)
    (output : List (String × JValue)) : Except PyErr JValue := do
  let n ← dictGetJ output "name"
  let l ← dictGetJ output "label"
  pure (JValue.obj
    [("origin", JValue.obj
      [("type", JValue.str "processed"),
       ("run", JValue.obj [("url", run.md_uri), ("uuid", run.uuid)]),
       ("inputs", JValue.arr (inputs.map (fun i =>
         JValue.obj [("name", i.name), ("url", i.uri),
                     ("uuid", i.uuid), ("type", i.type)]))),
       ("output", JValue.obj [("name", n), ("label", l)])])])

/-- `os.path.join(workspace, file_name)` for the staging paths used by
`create_run` and `update_processed_data`. -/
def joinPath (dir file : String) : String := dir ++ "/" ++ file

/-- Whether a JSON value is a JSON string. -/
def JValue.isStr : JValue → Bool
  | JValue.str _ => true
  | _ => false

/-- The two observable states of the `run_info` container during
`OmeroMetadataService.create_run`: its state when `_write_run` serializes
it (before the document is attached to the remote dataset), its state when
`create_run` returns (after the attach), the allocated document name, and
the document that was written. -/
structure CreateRunResult where
  runAtWrite : Run
  final : Run
  doc_name : String
  written_doc : JValue

/-- `OmeroMetadataService.create_run` over its observable inputs:
`dataset` is the processed dataset the run references (its `md_uri`/`uuid`
pair), `ann_file_names` are the names of the file annotations already on
the remote dataset, `workspace` is the local staging directory, and
`ann_id` is the id the remote store assigns to the uploaded file
annotation.  Before `_write_run`, `run_info.uuid` is set to the empty
string and `run_info.md_uri` to the local staging path; only after the
attachment are both set to the file annotation's id. -/
def create_run (dataset : Container) (ann_file_names : List String)
    (workspace : String) (ann_id : Int) (run_info : Run) : CreateRunResult :=
  let run_md_file_name := alloc_run_name ann_file_names
  let file_path := joinPath workspace run_md_file_name
  let r1 : Run :=
    { run_info with processed_dataset := dataset,
                    uuid := JValue.str "",
                    md_uri := JValue.str file_path }
  let r2 : Run :=
    { r1 with uuid := JValue.num ann_id, md_uri := JValue.num ann_id }
  ⟨r1, r2, run_md_file_name, write_run_doc r1⟩

/-- The constructor arguments of `OmeroMetadataService`
(`host, port, username, password`). -/
structure ServiceArgs where
  host : String
  port : Int
  username : String
  password : String
deriving DecidableEq, Repr

/-- An `OmeroMetadataService` instance, identified by the construction
arguments it was built from. -/
structure OmeroMetadataService where
  args : ServiceArgs
deriving DecidableEq, Repr

/-- `OmeroMetadataServiceBuilder`: its `__init__` stores
`self._instance = None`. -/
structure OmeroMetadataServiceBuilder where
  _instance : Option OmeroMetadataService
deriving DecidableEq, Repr

/-- A freshly constructed `OmeroMetadataServiceBuilder`. -/
def builder_init : OmeroMetadataServiceBuilder := ⟨none⟩

/-- `OmeroMetadataServiceBuilder.__call__`: when no instance is stored
(`not self._instance`; a stored service object is always truthy), a new
service is constructed from the given arguments and stored; otherwise the
stored instance is returned and the arguments are ignored.  Returns the
updated builder state together with the returned service. -/
def builder_call (b : OmeroMetadataServiceBuilder) (args : ServiceArgs) :
    OmeroMetadataServiceBuilder × OmeroMetadataService :=
  match b._instance with
  | none => (⟨some ⟨args⟩⟩, ⟨args⟩)
  | some s => (b, s)

/-- A sequence of `__call__`s on the builder, collecting the returned
services in order. -/
def builder_calls (b : OmeroMetadataServiceBuilder) :
    List ServiceArgs → OmeroMetadataServiceBuilder × List OmeroMetadataService
  | [] => (b, [])
  | a :: rest =>
    let p := builder_call b a
    let q := builder_calls p.1 rest
    (q.1, p.2 :: q.2)

/-- Whether an annotation is a file annotation whose attached file has the
given name (the `isinstance`/`getName` dispatch of
`update_processed_data`). -/
def Annot.isFileNamed (a : Annot) (n : String) : Bool :=
  match a with
  | Annot.file name => name == n
  | _ => false

/-- The annotation-replacement step of `update_processed_data`: every file
annotation named `processed_data.md.json` on the image is collected into
`to_delete` and deleted, then the freshly written document (a local file
named `processed_data.md.json`) is attached as a new file annotation. -/
def update_processed_data_anns (anns : List Annot) : List Annot :=
  anns.filter (fun a => !(a.isFileNamed "processed_data.md.json"))
    ++ [Annot.file "processed_data.md.json"]

theorem parse_run_inputs_map_write (l : List RunInputContainer) :
    parse_run_inputs (l.map write_run_input) = Except.ok l := by
  induction l with
  | nil => rfl
  | cons x xs ih =>
    simp only [List.map_cons, parse_run_inputs, ih]
    rfl

theorem parse_run_parameters_map_write (l : List RunParameterContainer) :
    parse_run_parameters (l.map write_run_parameter) = Except.ok l := by
  induction l with
  | nil => rfl
  | cons x xs ih =>
    simp only [List.map_cons, parse_run_parameters, ih]
    rfl

/-- In the `Except` monad of the embedding, binding an `ok` value just
applies the continuation. -/
theorem ok_bind {α β : Type} (a : α) (f : α → Except PyErr β) :
    (Except.ok a >>= f) = f a := rfl

/-- A bind in the `Except` monad of the embedding succeeds exactly when
both steps succeed. -/
theorem bindE_eq_ok {α β : Type} {x : Except PyErr α} {f : α → Except PyErr β}
    {b : β} :
    (x >>= f) = Except.ok b ↔ ∃ a, x = Except.ok a ∧ f a = Except.ok b := by
  cases x <;> simp [Bind.bind, Except.bind]

/-- C1: for every well-formed `Run` (non-empty ordered `inputs` and
`parameters` lists), parsing the JSON document produced by `_write_run`
with `_parse_run` yields a `Run` equal to the original field for field,
with the order of the `inputs` and `parameters` lists preserved; in
particular the uuid, process name, process url, processed-dataset uuid and
processed-dataset url survive the round trip unchanged. -/
theorem run_write_parse_roundtrip (r : Run)
    (h1 : r.inputs ≠ []) (h2 : r.parameters ≠ []) :
    parse_run (write_run_doc r) r.md_uri = Except.ok r := by
  obtain ⟨md, uuid, pn, pu, ⟨pdu, pduu⟩, ins, ps⟩ := r
  show Except.bind (parse_run_inputs (ins.map write_run_input))
      (fun inputs => Except.bind (parse_run_parameters (ps.map write_run_parameter))
        (fun params => Except.ok (Run.mk md uuid pn pu ⟨pdu, pduu⟩ inputs params)))
      = Except.ok (Run.mk md uuid pn pu ⟨pdu, pduu⟩ ins ps)
  rw [parse_run_inputs_map_write, parse_run_parameters_map_write]
  rfl

/-- Witness for C1 at a concrete run with one input and one parameter. -/
theorem run_write_parse_roundtrip_witness :
    parse_run
      (write_run_doc
        { md_uri := JValue.str "p", uuid := JValue.str "u",
          process_name := JValue.str "threshold",
          process_uri := JValue.str "http://proc",
          processed_dataset := ⟨JValue.str "dsurl", JValue.str "dsuuid"⟩,
          inputs := [⟨JValue.str "i", JValue.str "data", JValue.str "q",
                      JValue.str "o"⟩],
          parameters := [⟨JValue.str "sigma", JValue.str "2"⟩] })
      (JValue.str "p")
      = Except.ok
        { md_uri := JValue.str "p", uuid := JValue.str "u",
          process_name := JValue.str "threshold",
          process_uri := JValue.str "http://proc",
          processed_dataset := ⟨JValue.str "dsurl", JValue.str "dsuuid"⟩,
          inputs := [⟨JValue.str "i", JValue.str "data", JValue.str "q",
                      JValue.str "o"⟩],
          parameters := [⟨JValue.str "sigma", JValue.str "2"⟩] } :=
  run_write_parse_roundtrip _ (by simp) (by simp)

/-- Counterexample to C2 as stated: a document in which `inputs` and
`parameters` are present but are not lists of objects (they are the empty
string, iterated by Python as zero characters) is decoded without any
error, yielding a run with empty input and parameter lists — no error of
any kind, let alone a typed `MalformedDocumentError`, is raised. -/
theorem run_decode_malformed_counterexample :
    parse_run
      (JValue.obj
        [("uuid", JValue.str "u"),
         ("process", JValue.obj [("name", JValue.str "n"),
                                 ("url", JValue.str "w")]),
         ("processed_dataset", JValue.obj [("uuid", JValue.str "du"),
                                           ("url", JValue.str "dw")]),
         ("inputs", JValue.str ""),
         ("parameters", JValue.str "")])
      (JValue.str "m")
      = Except.ok
        (Run.mk (JValue.str "m") (JValue.str "u") (JValue.str "n")
          (JValue.str "w") ⟨JValue.str "dw", JValue.str "du"⟩ [] []) := rfl

/-- C2 (amended): decoding `{"uuid": "x"}` fails with the built-in
`KeyError 'process'` (the module defines no typed `MalformedDocumentError`);
decoding succeeds only when every one of the required key chains `uuid`,
`process.name`, `process.url`, `processed_dataset.url`,
`processed_dataset.uuid` resolves and the `inputs` and `parameters` entries
can be iterated with every element an object carrying the required keys;
and whenever any of those requirements fails, decoding fails with some
`KeyError` or `TypeError`.  (A present `inputs`/`parameters` that is an
empty non-list iterable is accepted, see the counterexample.) -/
theorem run_decode_rejects_missing_keys :
    (∀ md, parse_run (JValue.obj [("uuid", JValue.str "x")]) md
        = Except.error (PyErr.keyError "process"))
    ∧ (∀ d md r, parse_run d md = Except.ok r →
        (d.getKey "uuid").isOk = true
        ∧ ((d.getKey "process") >>= fun p => p.getKey "name").isOk = true
        ∧ ((d.getKey "process") >>= fun p => p.getKey "url").isOk = true
        ∧ ((d.getKey "processed_dataset") >>= fun p => p.getKey "url").isOk = true
        ∧ ((d.getKey "processed_dataset") >>= fun p => p.getKey "uuid").isOk = true
        ∧ ((d.getKey "inputs") >>= fun v => v.iter >>= parse_run_inputs).isOk = true
        ∧ ((d.getKey "parameters") >>= fun v => v.iter >>= parse_run_parameters).isOk = true)
    ∧ (∀ d md,
        ((d.getKey "uuid").isOk = false
         ∨ ((d.getKey "process") >>= fun p => p.getKey "name").isOk = false
         ∨ ((d.getKey "process") >>= fun p => p.getKey "url").isOk = false
         ∨ ((d.getKey "processed_dataset") >>= fun p => p.getKey "url").isOk = false
         ∨ ((d.getKey "processed_dataset") >>= fun p => p.getKey "uuid").isOk = false
         ∨ ((d.getKey "inputs") >>= fun v => v.iter >>= parse_run_inputs).isOk = false
         ∨ ((d.getKey "parameters") >>= fun v => v.iter >>= parse_run_parameters).isOk = false) →
        ∃ e, parse_run d md = Except.error e) := by
  have hmain : ∀ d md r, parse_run d md = Except.ok r →
      (d.getKey "uuid").isOk = true
      ∧ ((d.getKey "process") >>= fun p => p.getKey "name").isOk = true
      ∧ ((d.getKey "process") >>= fun p => p.getKey "url").isOk = true
      ∧ ((d.getKey "processed_dataset") >>= fun p => p.getKey "url").isOk = true
      ∧ ((d.getKey "processed_dataset") >>= fun p => p.getKey "uuid").isOk = true
      ∧ ((d.getKey "inputs") >>= fun v => v.iter >>= parse_run_inputs).isOk = true
      ∧ ((d.getKey "parameters") >>= fun v => v.iter >>= parse_run_parameters).isOk = true := by
    intro d md r h
    simp only [parse_run] at h
    rw [bindE_eq_ok] at h; obtain ⟨uuid, hu, h⟩ := h
    rw [bindE_eq_ok] at h; obtain ⟨process, hp, h⟩ := h
    rw [bindE_eq_ok] at h; obtain ⟨pname, hpn, h⟩ := h
    rw [bindE_eq_ok] at h; obtain ⟨purl, hpu, h⟩ := h
    rw [bindE_eq_ok] at h; obtain ⟨pd, hpd, h⟩ := h
    rw [bindE_eq_ok] at h; obtain ⟨pdUrl, hpdu, h⟩ := h
    rw [bindE_eq_ok] at h; obtain ⟨pdUuid, hpduu, h⟩ := h
    rw [bindE_eq_ok] at h; obtain ⟨inputsV, hiv, h⟩ := h
    rw [bindE_eq_ok] at h; obtain ⟨inputsL, hil, h⟩ := h
    rw [bindE_eq_ok] at h; obtain ⟨inputs, hins, h⟩ := h
    rw [bindE_eq_ok] at h; obtain ⟨paramsV, hpv, h⟩ := h
    rw [bindE_eq_ok] at h; obtain ⟨paramsL, hpl, h⟩ := h
    rw [bindE_eq_ok] at h; obtain ⟨params, hps, h⟩ := h
    refine ⟨?_, ?_, ?_, ?_, ?_, ?_, ?_⟩ <;>
      simp only [hu, hp, hpn, hpu, hpd, hpdu, hpduu, hiv, hil, hins, hpv,
        hpl, hps, ok_bind, Except.isOk] <;> rfl
  refine ⟨fun md => rfl, hmain, ?_⟩
  intro d md hbad
  cases hok : parse_run d md with
  | ok r =>
    exfalso
    have hall := hmain d md r hok
    rcases hbad with hb | hb | hb | hb | hb | hb | hb <;>
      simp [hb] at hall
  | error e => exact ⟨e, rfl⟩

/-- Witness for C2 (amended) at concrete inputs: the empty document is
rejected (its `uuid` lookup fails), and a fully-formed document decodes,
so the success-implies-keys-present conjunct applies to it. -/
theorem run_decode_rejects_missing_keys_witness :
    (∃ e, parse_run (JValue.obj []) (JValue.str "m") = Except.error e)
    ∧ ((JValue.obj [("uuid", JValue.str "x")]).getKey "uuid").isOk = true :=
  ⟨run_decode_rejects_missing_keys.2.2 (JValue.obj []) (JValue.str "m")
      (Or.inl rfl),
   (run_decode_rejects_missing_keys.2.1
      (JValue.obj
        [("uuid", JValue.str "x"),
         ("process", JValue.obj [("name", JValue.str "n"),
                                 ("url", JValue.str "w")]),
         ("processed_dataset", JValue.obj [("uuid", JValue.str "du"),
                                           ("url", JValue.str "dw")]),
         ("inputs", JValue.arr []),
         ("parameters", JValue.arr [])])
      (JValue.str "m")
      (Run.mk (JValue.str "m") (JValue.str "x") (JValue.str "n")
        (JValue.str "w") ⟨JValue.str "dw", JValue.str "du"⟩ [] [])
      rfl).1⟩

theorem toDigitsCore_eq_decChars :
    ∀ (fuel n : Nat) (acc : List Char), n < fuel →
      Nat.toDigitsCore 10 fuel n acc = decChars n ++ acc := by
  intro fuel
  induction fuel with
  | zero => intro n acc h; omega
  | succ fuel ih =>
    intro n acc h
    rw [show Nat.toDigitsCore 10 (fuel + 1) n acc
        = (if n / 10 = 0 then Nat.digitChar (n % 10) :: acc
           else Nat.toDigitsCore 10 fuel (n / 10) (Nat.digitChar (n % 10) :: acc))
        from by simp [Nat.toDigitsCore]]
    by_cases h10 : n / 10 = 0
    · have hn : n < 10 := by
        rcases Nat.lt_or_ge n 10 with h' | h'
        · exact h'
        · exact absurd h10 (by
            have := Nat.div_le_div_right (c := 10) h'
            simp at this
            omega)
      rw [if_pos h10, decChars, dif_pos hn, Nat.mod_eq_of_lt hn]
      rfl
    · have hn : ¬ n < 10 := by
        intro hlt
        exact h10 (Nat.div_eq_of_lt hlt)
      have hpos : 0 < n := by omega
      have hlt : n / 10 < fuel :=
        Nat.lt_of_lt_of_le (Nat.div_lt_self hpos (by omega)) (by omega)
      rw [if_neg h10, ih (n / 10) (Nat.digitChar (n % 10) :: acc) hlt]
      conv_rhs => rw [decChars]
      rw [dif_neg hn, List.append_assoc]
      rfl

theorem repr_eq_decChars (n : Nat) :
    Nat.repr n = (decChars n).asString := by
  show (Nat.toDigitsCore 10 (n + 1) n []).asString = _
  rw [toDigitsCore_eq_decChars (n + 1) n [] (Nat.lt_succ_self n),
    List.append_nil]

theorem decVal_decChars (n : Nat) : decVal (decChars n) = n := by
  induction n using Nat.strong_induction_on with
  | _ n ih =>
    have hd : ∀ d, d < 10 → (Nat.digitChar d).toNat - 48 = d := by decide
    by_cases hn : n < 10
    · rw [decChars, dif_pos hn]
      show 0 * 10 + ((Nat.digitChar n).toNat - 48) = n
      rw [hd n hn]; omega
    · have hpos : 0 < n := by omega
      rw [decChars, dif_neg hn]
      unfold decVal
      rw [List.foldl_append]
      have := ih (n / 10) (Nat.div_lt_self hpos (by omega))
      unfold decVal at this
      rw [this]
      show n / 10 * 10 + ((Nat.digitChar (n % 10)).toNat - 48) = n
      rw [hd (n % 10) (Nat.mod_lt n (by omega))]
      omega

theorem nat_repr_injective : Function.Injective Nat.repr := by
  intro a b h
  rw [repr_eq_decChars, repr_eq_decChars] at h
  have hdata : decChars a = decChars b := congrArg String.data h
  calc a = decVal (decChars a) := (decVal_decChars a).symm
    _ = decVal (decChars b) := by rw [hdata]
    _ = b := decVal_decChars b

theorem decChars_ne_nil (n : Nat) : decChars n ≠ [] := by
  rw [decChars]
  split <;> simp

theorem repr_length_pos (n : Nat) : 0 < (Nat.repr n).length := by
  rw [repr_eq_decChars]
  show 0 < (decChars n).length
  cases h : decChars n with
  | nil => exact absurd h (decChars_ne_nil n)
  | cons c cs => simp

theorem runName_injective : Function.Injective runName := by
  intro a b h
  match a, b with
  | 0, 0 => rfl
  | 0, b + 1 =>
    exfalso
    have hlen := congrArg String.length h
    rw [runName, runName, String.length_append, String.length_append] at hlen
    have h1 : ("run_" : String).length = 4 := rfl
    have h2 : (".md.json" : String).length = 8 := rfl
    have h3 : ("run.md.json" : String).length = 11 := rfl
    have := repr_length_pos (b + 1)
    omega
  | a + 1, 0 =>
    exfalso
    have hlen := congrArg String.length h
    rw [runName, runName, String.length_append, String.length_append] at hlen
    have h1 : ("run_" : String).length = 4 := rfl
    have h2 : (".md.json" : String).length = 8 := rfl
    have h3 : ("run.md.json" : String).length = 11 := rfl
    have := repr_length_pos (a + 1)
    omega
  | a + 1, b + 1 =>
    rw [runName, runName] at h
    have hdata := congrArg String.data h
    rw [String.data_append, String.data_append, String.data_append,
      String.data_append, List.append_assoc, List.append_assoc] at hdata
    have h1 := List.append_cancel_left hdata
    have h2 := List.append_cancel_right h1
    have h3 : Nat.repr (a + 1) = Nat.repr (b + 1) := String.ext h2
    exact congrArg Nat.succ (Nat.succ.inj (nat_repr_injective h3))

theorem alloc_run_name_loop_eq (files : List String) (k : Nat)
    (hfree : runName k ∉ files) (hbusy : ∀ j, j < k → runName j ∈ files) :
    ∀ fuel c, c ≤ k → k - c < fuel →
      alloc_run_name_loop files fuel c = runName k := by
  intro fuel
  induction fuel with
  | zero => intro c h1 h2; omega
  | succ fuel ih =>
    intro c hck hkc
    by_cases hc : c = k
    · subst hc
      rw [alloc_run_name_loop, if_neg hfree]
    · have hclt : c < k := by omega
      rw [alloc_run_name_loop, if_pos (hbusy c hclt)]
      exact ih (c + 1) (by omega) (by omega)

/-- C3: for every finite set of existing attachment names, the run-document
name allocated by `create_run` is the first name not among them in the
fixed sequence `run.md.json, run_1.md.json, run_2.md.json, ...`; the
allocation is a deterministic function of the existing names (no hash or
random suffix). -/
theorem create_run_name_allocation (ann_files : List String) (k : Nat)
    (hfree : runName k ∉ ann_files)
    (hbusy : ∀ j, j < k → runName j ∈ ann_files) :
    alloc_run_name ann_files = runName k := by
  have hk : k ≤ ann_files.length := by
    have hnodup : ((List.range k).map runName).Nodup :=
      (List.nodup_range k).map runName_injective
    have hsub : (List.range k).map runName ⊆ ann_files := by
      intro x hx
      rw [List.mem_map] at hx
      obtain ⟨j, hj, rfl⟩ := hx
      exact hbusy j (List.mem_range.mp hj)
    have hle := (List.subperm_of_subset hnodup hsub).length_le
    simpa using hle
  exact alloc_run_name_loop_eq ann_files k hfree hbusy
    (ann_files.length + 1) 0 (Nat.zero_le k) (by omega)

/-- Witness for C3 at the spec's concrete instance: with existing names
`run.md.json` and `run_1.md.json`, the allocated name is
`run_2.md.json`. -/
theorem create_run_name_allocation_witness :
    alloc_run_name ["run.md.json", "run_1.md.json"] = "run_2.md.json" := by
  have h := create_run_name_allocation ["run.md.json", "run_1.md.json"] 2
    (by decide) (by decide)
  rw [h]
  rfl

theorem tag_fold_lookup (anns : List Annot) (kv : List (String × String))
    (k : String) :
    (anns.foldl
      (fun kv ann =>
        match ann with
        | Annot.tag t =>
          if (kv.lookup t).isSome then kv
          else kv ++ [(t, "")]
        | _ => kv) kv).lookup k
    = (kv.lookup k).or
        (if k ∈ project_tag_keys anns then some "" else none) := by
  induction anns generalizing kv with
  | nil =>
    simp only [List.foldl_nil, project_tag_keys, List.filterMap_nil,
      List.not_mem_nil, if_false]
    cases kv.lookup k <;> rfl
  | cons a anns ih =>
    cases a with
    | tag t =>
      simp only [List.foldl_cons]
      rw [ih]
      have hkeys : project_tag_keys (Annot.tag t :: anns)
          = t :: project_tag_keys anns := rfl
      by_cases ht : (kv.lookup t).isSome
      · rw [if_pos ht, hkeys]
        by_cases hk : k = t
        · subst hk
          obtain ⟨v, hv⟩ := Option.isSome_iff_exists.mp ht
          simp [hv]
        · simp [List.mem_cons, hk]
      · rw [if_neg ht, hkeys, List.lookup_append]
        by_cases hk : k = t
        · subst hk
          have hnone : kv.lookup k = none := by
            cases h : kv.lookup k with
            | none => rfl
            | some v => rw [h] at ht; exact absurd rfl ht
          simp [hnone, List.lookup]
        · have hbeq : (k == t) = false := by simp [hk]
          simp [List.lookup, hbeq, List.mem_cons, hk]
    | map values =>
      simp only [List.foldl_cons]
      rw [ih]
      rfl
    | file name =>
      simp only [List.foldl_cons]
      rw [ih]
      rfl

/-- C4: the key-value map read by `get_raw_data` is the merge of the
item-level map-annotation pairs with the experiment-level tags: an
item-level entry always wins over a same-named tag, and a tag contributes
an empty-string entry exactly when its key is absent from the item-level
pairs; in particular an item carrying `stain maps-to DAPI` under an
experiment tagged `stain` resolves to `DAPI`. -/
theorem get_raw_data_kv_merge :
    (∀ (image_anns project_anns : List Annot) (k : String),
      (get_raw_data_kvp image_anns project_anns).lookup k
        = ((raw_data_item_pairs image_anns).lookup k).or
            (if k ∈ project_tag_keys project_anns then some "" else none))
    ∧ (get_raw_data_kvp [Annot.map [("stain", "DAPI")]]
        [Annot.tag "stain"]).lookup "stain" = some "DAPI" :=
  ⟨fun image_anns project_anns k =>
    tag_fold_lookup project_anns (raw_data_item_pairs image_anns) k,
   rfl⟩

/-- Counterexample to C5 as stated: importing with format tag `czi` does
interact with the remote store — the raw-dataset lookup runs before the
format check — and the raised error is the generic `DataServiceError`
(no `UnsupportedFormatError` type exists in the module). -/
theorem import_data_format_counterexample :
    (import_data (JValue.num 7) "/data/img.czi" (JValue.str "n")
        (JValue.str "a") (JValue.str "now") "czi" [] 99).1
      = [RemoteOp.lookupDataset (JValue.num 7)]
    ∧ (import_data (JValue.num 7) "/data/img.czi" (JValue.str "n")
        (JValue.str "a") (JValue.str "now") "czi" [] 99).2
      = Except.error (PyErr.dataServiceError
          "OMERO service can only import tiff images (format=czi)") :=
  ⟨rfl, rfl⟩

/-- C5 (amended): for every call to `import_data` with a format tag other
than `imagetiff`, the call fails with `DataServiceError` naming the format
(the module defines no `UnsupportedFormatError`), after performing exactly
one remote operation — the raw-dataset lookup, which precedes the format
check — and before any remote mutation: no import, link, or annotation
write reaches the remote store. -/
theorem import_data_rejects_non_tiff (url : JValue) (path : String)
    (name author date : JValue) (fmt : String)
    (kvp : List (String × String)) (iid : Int) (h : fmt ≠ "imagetiff") :
    import_data url path name author date fmt kvp iid
      = ([RemoteOp.lookupDataset url],
         Except.error (PyErr.dataServiceError
           ("OMERO service can only import tiff images (format=" ++ fmt ++ ")")))
    ∧ ∀ op ∈ (import_data url path name author date fmt kvp iid).1,
        op.isMutation = false := by
  have hbeq : (fmt == "imagetiff") = false := by simp [h]
  constructor
  · simp [import_data, hbeq]
  · intro op hop
    simp [import_data, hbeq] at hop
    subst hop
    rfl

/-- Witness for C5 (amended) at the spec's concrete instance
(`format_="czi"`). -/
theorem import_data_rejects_non_tiff_witness :
    import_data (JValue.num 7) "/data/img.czi" (JValue.str "n")
        (JValue.str "a") (JValue.str "now") "czi" [] 99
      = ([RemoteOp.lookupDataset (JValue.num 7)],
         Except.error (PyErr.dataServiceError
           "OMERO service can only import tiff images (format=czi)")) :=
  (import_data_rejects_non_tiff (JValue.num 7) "/data/img.czi"
    (JValue.str "n") (JValue.str "a") (JValue.str "now") "czi" [] 99
    (by decide)).1

/-- Counterexample to C6 as stated: encoding a processed-data origin whose
output has a `name` but lacks the `label` key does not produce a document
without the `label` key — it fails with `KeyError 'label'`, because
`update_processed_data` subscripts `processed_data.output['label']`
unconditionally. -/
theorem processed_output_encode_counterexample :
    update_processed_data_doc ⟨JValue.str "r", JValue.str "ru"⟩ []
      [("name", JValue.str "o")]
      = Except.error (PyErr.keyError "label") := rfl

/-- C6 (amended): on decode the `output.name` and `output.label` keys are
each optional and absence means not-recorded: the decoded output has an
entry for `label` (resp. `name`) exactly when the document's output object
has that key, with the same value — an absent key is never materialised as
an empty string.  On encode, however, `update_processed_data` reads
`output['name']` and `output['label']` unconditionally: it produces a
document (always carrying both keys) when both are present, and otherwise
fails with `KeyError` on the first absent one instead of producing a
document without that key. -/
theorem processed_output_optional_fields :
    (∀ ofs : List (String × JValue),
      (parse_origin_output (JValue.obj ofs)).map (fun out => out.lookup "label")
        = Except.ok (ofs.lookup "label")
      ∧ (parse_origin_output (JValue.obj ofs)).map (fun out => out.lookup "name")
        = Except.ok (ofs.lookup "name"))
    ∧ (∀ (run : Container) (inputs : List ProcessedDataInputContainer)
        (output : List (String × JValue)) (n l : JValue),
        output.lookup "name" = some n → output.lookup "label" = some l →
        update_processed_data_doc run inputs output
          = Except.ok (JValue.obj
            [("origin", JValue.obj
              [("type", JValue.str "processed"),
               ("run", JValue.obj [("url", run.md_uri), ("uuid", run.uuid)]),
               ("inputs", JValue.arr (inputs.map (fun i =>
                 JValue.obj [("name", i.name), ("url", i.uri),
                             ("uuid", i.uuid), ("type", i.type)]))),
               ("output", JValue.obj [("name", n), ("label", l)])])]))
    ∧ (∀ (run : Container) (inputs : List ProcessedDataInputContainer)
        (output : List (String × JValue)),
        output.lookup "name" = none →
        update_processed_data_doc run inputs output
          = Except.error (PyErr.keyError "name"))
    ∧ (∀ (run : Container) (inputs : List ProcessedDataInputContainer)
        (output : List (String × JValue)) (n : JValue),
        output.lookup "name" = some n → output.lookup "label" = none →
        update_processed_data_doc run inputs output
          = Except.error (PyErr.keyError "label")) := by
  refine ⟨?_, ?_, ?_, ?_⟩
  · intro ofs
    cases hn : ofs.lookup "name" <;> cases hl : ofs.lookup "label" <;>
      simp [parse_origin_output, JValue.hasKeyObj, JValue.getKey, dictSetJ,
        ok_bind, hn, hl, List.lookup, Except.map, pure, Except.pure]
  · intro run inputs output n l hn hl
    simp [update_processed_data_doc, dictGetJ, hn, hl, ok_bind,
      Bind.bind, Except.bind, Functor.map, Except.map, pure, Except.pure]
  · intro run inputs output hn
    simp [update_processed_data_doc, dictGetJ, hn,
      Bind.bind, Except.bind, Functor.map, Except.map, pure, Except.pure]
  · intro run inputs output n hn hl
    simp [update_processed_data_doc, dictGetJ, hn, hl, ok_bind,
      Bind.bind, Except.bind, Functor.map, Except.map, pure, Except.pure]

/-- Witness for C6 (amended) at concrete outputs: an output object with
`name` but no `label` decodes with `label` absent, and encoding an output
carrying both keys yields the document with both keys. -/
theorem processed_output_optional_fields_witness :
    (parse_origin_output (JValue.obj [("name", JValue.str "o")])).map
        (fun out => out.lookup "label") = Except.ok none
    ∧ update_processed_data_doc ⟨JValue.str "r", JValue.str "ru"⟩ []
        [("name", JValue.str "o"), ("label", JValue.str "lbl")]
      = Except.ok (JValue.obj
        [("origin", JValue.obj
          [("type", JValue.str "processed"),
           ("run", JValue.obj [("url", JValue.str "r"),
                               ("uuid", JValue.str "ru")]),
           ("inputs", JValue.arr []),
           ("output", JValue.obj [("name", JValue.str "o"),
                                  ("label", JValue.str "lbl")])])]) :=
  ⟨(processed_output_optional_fields.1 [("name", JValue.str "o")]).1,
   by
    have h := processed_output_optional_fields.2.1
      ⟨JValue.str "r", JValue.str "ru"⟩ []
      [("name", JValue.str "o"), ("label", JValue.str "lbl")]
      (JValue.str "o") (JValue.str "lbl") rfl rfl
    simpa using h⟩

/-- C7: in `create_run` the run's identity is assigned only after the
backing document is attached: at the moment `_write_run` serializes the
run its `uuid` is the empty string and its `md_uri` is only the local
staging path (the persisted document itself carries the empty `uuid`);
after a successful attach, both `uuid` and `md_uri` equal the id of the
created file annotation — so a run with an empty `uuid` is
not-yet-persisted. -/
theorem create_run_identity (dataset : Container)
    (ann_file_names : List String) (workspace : String) (ann_id : Int)
    (run_info : Run) :
    (create_run dataset ann_file_names workspace ann_id run_info).runAtWrite.uuid
      = JValue.str ""
    ∧ (create_run dataset ann_file_names workspace ann_id run_info).runAtWrite.md_uri
      = JValue.str (joinPath workspace (alloc_run_name ann_file_names))
    ∧ ((create_run dataset ann_file_names workspace ann_id run_info).written_doc).getKey "uuid"
      = Except.ok (JValue.str "")
    ∧ (create_run dataset ann_file_names workspace ann_id run_info).final.uuid
      = JValue.num ann_id
    ∧ (create_run dataset ann_file_names workspace ann_id run_info).final.md_uri
      = JValue.num ann_id :=
  ⟨rfl, rfl, rfl, rfl, rfl⟩

/-- Counterexample to C8 as stated: encoding a run whose only parameter
has the numeric in-memory value `5` puts the JSON number `5` — not a JSON
string — into the `value` entry of the encoded parameters array. -/
theorem run_parameter_value_counterexample :
    (write_run_doc
      { md_uri := JValue.str "p", uuid := JValue.str "u",
        process_name := JValue.str "proc",
        process_uri := JValue.str "http://proc",
        processed_dataset := ⟨JValue.str "dsurl", JValue.str "dsuuid"⟩,
        inputs := [],
        parameters := [⟨JValue.str "sigma", JValue.num 5⟩] }).getKey "parameters"
      = Except.ok (JValue.arr
          [JValue.obj [("name", JValue.str "sigma"),
                       ("value", JValue.num 5)]])
    ∧ (JValue.num 5).isStr = false :=
  ⟨rfl, rfl⟩

/-- C8 (amended): `_write_run` serializes each parameter's `value` field
verbatim, with the parameter's in-memory type: a string value yields a
JSON string, but a numeric value yields a JSON number — no conversion to
text is performed. -/
theorem run_parameter_value_verbatim (r : Run) :
    (write_run_doc r).getKey "parameters"
      = Except.ok (JValue.arr (r.parameters.map (fun p =>
          JValue.obj [("name", p.name), ("value", p.value)]))) := rfl

theorem builder_calls_stored (s : OmeroMetadataService)
    (l : List ServiceArgs) :
    builder_calls ⟨some s⟩ l = (⟨some s⟩, List.replicate l.length s) := by
  induction l with
  | nil => rfl
  | cons a rest ih => simp [builder_calls, builder_call, ih, List.replicate]

/-- C9: the service builder is a singleton: starting from a fresh builder,
the first `__call__` constructs the service from its arguments, and every
later call returns that exact same instance, ignoring its own (possibly
different) host, port, username and password arguments. -/
theorem builder_singleton (a : ServiceArgs) (rest : List ServiceArgs) :
    (builder_calls builder_init (a :: rest)).2
      = OmeroMetadataService.mk a
        :: List.replicate rest.length (OmeroMetadataService.mk a) := by
  simp [builder_calls, builder_init, builder_call, builder_calls_stored]

/-- C10: after `update_processed_data` replaces the origin attachment, the
image carries exactly one file annotation named `processed_data.md.json`
(every pre-existing one was deleted before the fresh document was
attached), and repeating the update leaves the annotation list unchanged —
duplicates never accumulate. -/
theorem update_processed_data_single_attachment (anns : List Annot) :
    List.countP (fun a => a.isFileNamed "processed_data.md.json")
        (update_processed_data_anns anns) = 1
    ∧ update_processed_data_anns (update_processed_data_anns anns)
        = update_processed_data_anns anns := by
  constructor
  · rw [update_processed_data_anns, List.countP_append]
    have h1 : List.countP (fun a => a.isFileNamed "processed_data.md.json")
        (anns.filter (fun a => !(a.isFileNamed "processed_data.md.json")))
        = 0 := by
      rw [List.countP_eq_zero]
      intro a ha
      have hmem := (List.mem_filter.mp ha).2
      simp only [Bool.not_eq_true'] at hmem
      simp [hmem]
    rw [h1]
    rfl
  · rw [update_processed_data_anns, update_processed_data_anns,
      List.filter_append]
    simp [List.filter_filter, update_processed_data_anns,
      Annot.isFileNamed]
